import Mathlib

/-!
Shallow embedding of `src/homeassistant/components/pvcharge/pvcharger.py`.

The controller is a `transitions.AsyncMachine` over four string-named states
with a PID regulator and a map of cancellable subscriptions.  States and
events are kept as strings, exactly as in the source: the transition table
itself stores stale state names, and that is observable behaviour.

Machine-firing semantics follow the `transitions` library: firing an event
name that was never attached to the model raises AttributeError; firing an
attached event from a state with no matching table row raises MachineError
(the machine is built without ignore_invalid_triggers); otherwise the exit
callbacks of the source state run, the state is set, and the entry callbacks
of the destination state run.

Floats are embedded as rationals.  Driver and timer-service calls are
recorded as an effect trace.  Fallible Python code returns Except.
-/

namespace PVCharge

def AMP_MIN : ℚ := 6
def AMP_MAX : ℚ := 32
def POWER_MIN : ℚ := 2
def POWER_MAX : ℚ := 11
def SOC_MIN : ℚ := 1/4
def SOC_MID : ℚ := 1/2

def sOff : String := "off"
def sLoading : String := "loading"
def sBoosting : String := "boosting"
def sIdle : String := "idle"
def sMax : String := "max"
def sLoad : String := "load"
def evRun : String := "run"
def evPause : String := "pause"
def evBoost : String := "boost"
def evHalt : String := "halt"
def evAuto : String := "auto"
def kSoc : String := "soc"
def kPid : String := "pid"
def kTimer : String := "timer"
def aState : String := "state"

/-- Python exceptions that the embedded code can raise. -/
inductive PyErr where
  | machineError (event state : String)
  | attributeError (attr : String)
  | transportError
  | zeroDivisionError
deriving DecidableEq, Repr

/-- Externally observable side effects: charger-driver commands, subscription
registrations and cancellations, and PID auto-mode switches. -/
inductive Effect where
  | setEnabled (b : Bool)
  | setMaxCurrent (amp : ℤ)
  | cancelHandle (id : ℕ)
  | registerSocWatch (id : ℕ)
  | registerPidTick (id : ℕ)
  | registerBoostTimer (id : ℕ) (duration : ℚ)
  | pidSetAutoMode (b : Bool) (resume : Option ℚ)
deriving DecidableEq, Repr

/-- The mutable attributes of a `PVCharger` instance that the claims are
about.  `handles` is the `_handles` dict (insertion-ordered, purpose key to
cancellation handle); `nextId` generates fresh handle identities for newly
registered subscriptions. -/
structure Ctrl where
  state : String
  soc : ℚ
  control : ℚ
  chargePower : ℚ
  pidSetpoint : ℚ
  pidAuto : Bool
  handles : List (String × ℕ)
  nextId : ℕ
  ampMin : ℚ
  ampMax : ℚ
  powerLimits : ℚ × ℚ
  socLimits : ℚ × ℚ
deriving DecidableEq, Repr

/-- Python dict assignment `d[k] = v`: overwrite in place, else append. -/
def dictSet (d : List (String × ℕ)) (k : String) (v : ℕ) : List (String × ℕ) :=
  if d.any (fun p => p.1 == k) then
    d.map (fun p => if p.1 == k then (k, v) else p)
  else d ++ [(k, v)]

/-- Python `d.pop(k, None)`: the popped value (if any) and the rest. -/
def dictPop (d : List (String × ℕ)) (k : String) : Option ℕ × List (String × ℕ) :=
  match d.find? (fun p => p.1 == k) with
  | some p => (some p.2, d.filter (fun q => ¬ q.1 == k))
  | none => (none, d)

/-- Python `round` on rationals: round half to even. -/
def pythonRound (x : ℚ) : ℤ :=
  let f := Int.floor x
  if x - f < 1/2 then f
  else if x - f > 1/2 then f + 1
  else if 2 ∣ f then f else f + 1

/-- Python `round(x, 2)`. -/
def round2 (x : ℚ) : ℚ := (pythonRound (x * 100) : ℚ) / 100

/-- The constructor, lines 43 to 95.  The sensor lookup
`float(self.hass.states.get(self.soc_entity).state) / 100.0` is embedded as
`Option (Option ℚ)`: `none` when `states.get` returns no state object (the
attribute access on `None` then raises AttributeError, which the
`except ValueError` clause does not catch), `some none` when a state string
is present but `float` raises ValueError (caught, fallback 0.48), and
`some (some v)` when `float` returns `v`. -/
def pvChargerInit (sensorState : Option (Option ℚ)) : Except PyErr Ctrl :=
  match sensorState with
  | none => Except.error (PyErr.attributeError aState)
  | some parsed =>
    let soc : ℚ := match parsed with
      | some v => v / 100
      | none => 12/25
    Except.ok
      { state := sOff
        soc := soc
        control := AMP_MIN
        chargePower := 0
        pidSetpoint := 15/2
        pidAuto := true
        handles := []
        nextId := 0
        ampMin := AMP_MIN
        ampMax := AMP_MAX
        powerLimits := (POWER_MIN, POWER_MAX)
        socLimits := (SOC_MIN, SOC_MID) }

/-- Property `enough_power`, lines 97 to 104. -/
def enough_power (c : Ctrl) : Bool := decide (c.soc < 1/2)

/-- Method `_calculate_setpoint`, lines 118 to 135.  The gradient is computed
unconditionally before any branch, so equal soc limits raise
ZeroDivisionError. -/
def calculate_setpoint (c : Ctrl) : Except PyErr ℚ :=
  let socMin := c.socLimits.1
  let socMid := c.socLimits.2
  let pMin := c.powerLimits.1
  let pMax := c.powerLimits.2
  if socMid - socMin = 0 then Except.error PyErr.zeroDivisionError
  else
    let grad := (pMax - pMin) / (socMid - socMin)
    Except.ok
      (if c.state = sBoosting then pMax
       else if c.soc < socMin then pMax
       else if c.soc < socMid then pMax - grad * (c.soc - socMin)
       else pMin)

/-- Method `_async_update_status`, lines 137 to 144, given the parsed
`nrg[11]` value of a successful status response. -/
def update_status (nrg11 : ℚ) (c : Ctrl) : Ctrl :=
  { c with chargePower := round2 (nrg11 / 100) }

/-- Method `_async_switch_charger`, lines 155 to 160. -/
def async_switch_charger (b : Bool) : List Effect :=
  [Effect.setEnabled b]

/-- Method `_async_update_control`, lines 162 to 166. -/
def async_update_control (c : Ctrl) : List Effect :=
  [Effect.setMaxCurrent (pythonRound c.control)]

/-- Callback `on_exit_off`, lines 195 to 210: register the soc watch and the
periodic pid tick, then enable the charger. -/
def on_exit_off (c : Ctrl) : Ctrl × List Effect :=
  let c1 : Ctrl := { c with handles := dictSet c.handles kSoc c.nextId, nextId := c.nextId + 1 }
  let c2 : Ctrl := { c1 with handles := dictSet c1.handles kPid c1.nextId, nextId := c1.nextId + 1 }
  (c2, Effect.registerSocWatch c.nextId :: Effect.registerPidTick (c.nextId + 1) ::
       async_switch_charger true)

/-- Callback `on_enter_off`, lines 212 to 219: cancel every handle in the
map, clear the map, then disable the charger. -/
def on_enter_off (c : Ctrl) : Ctrl × List Effect :=
  ({ c with handles := [] },
   c.handles.map (fun p => Effect.cancelHandle p.2) ++ async_switch_charger false)

/-- Callback `on_enter_idle`, lines 221 to 224. -/
def on_enter_idle (c : Ctrl) : Ctrl × List Effect :=
  ({ c with pidAuto := false },
   async_switch_charger false ++ [Effect.pidSetAutoMode false none])

/-- Callback `on_exit_idle`, lines 226 to 229. -/
def on_exit_idle (c : Ctrl) : Ctrl × List Effect :=
  ({ c with pidAuto := true },
   async_switch_charger true ++ [Effect.pidSetAutoMode true (some c.powerLimits.1)])

/-- Default boost duration, `timedelta(minutes=30)`, in seconds. -/
def boostDefaultDuration : ℚ := 30 * 60

/-- Callback `on_enter_boosting`, lines 235 to 247: register the one-shot
timer and set the control output to `amp_max`; the driver call below it is
commented out in the source. -/
def on_enter_boosting (duration : ℚ) (c : Ctrl) : Ctrl × List Effect :=
  ({ c with handles := dictSet c.handles kTimer c.nextId,
            nextId := c.nextId + 1,
            control := c.ampMax },
   [Effect.registerBoostTimer c.nextId duration])

/-- Callback `on_exit_boosting`, lines 249 to 258: pop and cancel the timer
handle if present. -/
def on_exit_boosting (c : Ctrl) : Ctrl × List Effect :=
  match dictPop c.handles kTimer with
  | (some h, d) => ({ c with handles := d }, [Effect.cancelHandle h])
  | (none, d) => ({ c with handles := d }, [])

/-- Exit callbacks attached by the machine via the on_exit name convention. -/
def exitCallback (s : String) : Ctrl → Ctrl × List Effect :=
  if s = sOff then on_exit_off
  else if s = sIdle then on_exit_idle
  else if s = sBoosting then on_exit_boosting
  else fun c => (c, [])

/-- Entry callbacks attached by the machine via the on_enter name convention. -/
def enterCallback (s : String) : Ctrl → Ctrl × List Effect :=
  if s = sOff then on_enter_off
  else if s = sIdle then on_enter_idle
  else if s = sBoosting then on_enter_boosting boostDefaultDuration
  else fun c => (c, [])

/-- A transition source: an explicit list of state names, or the wildcard
string used by the halt row. -/
inductive Src where
  | names (l : List String)
  | wildcard
deriving DecidableEq, Repr

/-- The class attribute `states`, line 35. -/
def pvStates : List String := [sOff, sLoading, sBoosting, sIdle]

/-- The class attribute `transitions`, lines 36 to 41, verbatim: note the
sources `max` and `load`, which are not names of any declared state. -/
def rawTransitions : List (String × Src × String) :=
  [(evRun, Src.names [sOff, sMax, sIdle], sLoading),
   (evPause, Src.names [sLoading], sIdle),
   (evBoost, Src.names [sLoad, sIdle], sBoosting),
   (evHalt, Src.wildcard, sOff)]

/-- Source resolution as done by `Machine.add_transition`: the wildcard
expands to the full states list. -/
def resolveSrc : Src → List String
  | Src.names l => l
  | Src.wildcard => pvStates

/-- The event names the machine attaches to the model as trigger methods. -/
def pvEvents : List String := [evRun, evPause, evBoost, evHalt]

/-- The first table row for the event whose resolved sources contain the
current state. -/
def findTransition (ev : String) (st : String) : Option (String × Src × String) :=
  rawTransitions.find? (fun t => decide (t.1 = ev ∧ st ∈ resolveSrc t.2.1))

/-- All states from which `ev` has a table row. -/
def eventSources (ev : String) : List String :=
  (rawTransitions.filter (fun t => decide (t.1 = ev))).flatMap (fun t => resolveSrc t.2.1)

/-- Firing a trigger on the model, with the `transitions` library semantics
described in the file header. -/
def fire (ev : String) (c : Ctrl) : Except PyErr (Ctrl × List Effect) :=
  if ev ∈ pvEvents then
    match findTransition ev c.state with
    | none => Except.error (PyErr.machineError ev c.state)
    | some t =>
      let r1 := (exitCallback c.state) c
      let c2 : Ctrl := { r1.1 with state := t.2.2 }
      let r2 := (enterCallback t.2.2) c2
      Except.ok (r2.1, r1.2 ++ r2.2)
  else Except.error (PyErr.attributeError ev)

/-- Callback `_async_time_is_up`, lines 231 to 233: pop the timer handle from
the map, then call `self.auto()`. -/
def time_is_up (c : Ctrl) : Except PyErr (Ctrl × List Effect) :=
  let d := (dictPop c.handles kTimer).2
  fire evAuto { c with handles := d }

/-- The part of the tick handler `_async_update_pid` after the status read,
lines 174 to 193: the state-change checks, then the setpoint and PID update
and the current command.  `pid` abstracts the simple_pid compute call, from
setpoint and measurement to output. -/
def update_pid_body (pid : ℚ → ℚ → ℚ) (c0 : Ctrl) : Except PyErr (Ctrl × List Effect) :=
  if c0.state = sIdle then
    (if enough_power c0 then fire evRun c0 else Except.ok (c0, []))
  else if c0.state = sLoading ∧ enough_power c0 = false then
    fire evPause c0
  else
    match calculate_setpoint c0 with
    | Except.error e => Except.error e
    | Except.ok sp =>
      let c1 : Ctrl := { c0 with pidSetpoint := sp }
      let out := pid sp c1.chargePower
      let c2 : Ctrl := { c1 with control := out }
      Except.ok (c2, async_update_control c2)

/-- Tick handler `_async_update_pid`, lines 168 to 193.  `net` is the status
read: `none` when the driver request raises, `some nrg11` on success. -/
def update_pid (net : Option ℚ) (pid : ℚ → ℚ → ℚ) (c : Ctrl) :
    Except PyErr (Ctrl × List Effect) :=
  match net with
  | none => Except.error PyErr.transportError
  | some nrg11 => update_pid_body pid (update_status nrg11 c)

/-- Modelled from the spec: the interval scheduler that drives the tick is
Home Assistant's `async_track_time_interval`, which is not under src/.  Per
the spec, every per-tick error is contained within that tick's handler: a
failing tick performs no actuation and leaves the controller unchanged, and
the next scheduled tick runs normally with no retry before it. -/
def tickStep (net : Option ℚ) (pid : ℚ → ℚ → ℚ) (c : Ctrl) : Ctrl × List Effect :=
  match update_pid net pid c with
  | Except.ok r => r
  | Except.error _ => (c, [])

/-- Modelled from the spec: the sequence of scheduled ticks, each fed the
status-read outcome of its interval. -/
def runTicks : List (Option ℚ) → (ℚ → ℚ → ℚ) → Ctrl → Ctrl × List Effect
  | [], _, c => (c, [])
  | n :: ns, pid, c =>
    let r1 := tickStep n pid c
    let r2 := runTicks ns pid r1.1
    (r2.1, r1.2 ++ r2.2)

/-- A controller as built by the constructor, with the state overridden; used
as concrete test input. -/
def mkCtrl (s : String) : Ctrl :=
  { state := s
    soc := 12/25
    control := AMP_MIN
    chargePower := 0
    pidSetpoint := 15/2
    pidAuto := true
    handles := []
    nextId := 0
    ampMin := AMP_MIN
    ampMax := AMP_MAX
    powerLimits := (POWER_MIN, POWER_MAX)
    socLimits := (SOC_MIN, SOC_MID) }

/-- A controller in state `s` with measurement `m`. -/
def ctrlWith (s : String) (m : ℚ) : Ctrl := { mkCtrl s with soc := m }

/-! Helper definitions used by several theorems. -/

/-- The value the code's setpoint policy yields at the configured bands. -/
def spVal (s : String) (m : ℚ) : ℚ :=
  if s = sBoosting then POWER_MAX
  else if m < SOC_MIN then POWER_MAX
  else if m < SOC_MID then POWER_MAX - 36 * (m - SOC_MIN)
  else POWER_MIN

/-- The interpolation described by the spec: from POWER_MAX at the lower band
down to POWER_MIN at the mid band. -/
def lerpSpec (m : ℚ) : ℚ :=
  POWER_MAX + (POWER_MIN - POWER_MAX) * ((m - SOC_MIN) / (SOC_MID - SOC_MIN))

/-- The setpoint computed for state `s` and measurement `m` on a controller
with the configured limits. -/
def setpointValue (s : String) (m : ℚ) : ℚ :=
  match calculate_setpoint (ctrlWith s m) with
  | Except.ok p => p
  | Except.error _ => 0

/-- True exactly on the charger-disable command. -/
def isDisableCmd (e : Effect) : Bool := decide (e = Effect.setEnabled false)

/-- Number of charger-disable commands in an effect trace. -/
def countDisable (es : List Effect) : ℕ := (es.filter isDisableCmd).length

/-- True exactly on the commands sent to the charger driver. -/
def isDriverCmd : Effect → Bool
  | Effect.setEnabled _ => true
  | Effect.setMaxCurrent _ => true
  | _ => false

lemma calculate_setpoint_eq (c : Ctrl) (hs : c.socLimits = (SOC_MIN, SOC_MID))
    (hp : c.powerLimits = (POWER_MIN, POWER_MAX)) :
    calculate_setpoint c = Except.ok (spVal c.state c.soc) := by
  unfold calculate_setpoint spVal
  rw [hs, hp]
  norm_num [SOC_MIN, SOC_MID, POWER_MIN, POWER_MAX]

lemma spVal_antitone (s : String) (m m2 : ℚ) (h : m ≤ m2) : spVal s m2 ≤ spVal s m := by
  unfold spVal SOC_MIN SOC_MID POWER_MIN POWER_MAX
  split_ifs <;> linarith

lemma setpointValue_eq (s : String) (m : ℚ) : setpointValue s m = spVal s m := by
  unfold setpointValue
  rw [calculate_setpoint_eq (ctrlWith s m) rfl rfl]
  rfl

/-! Claim theorems. -/

/-- Claim C1 (code bug): the claim says `run` fires from Off, Boosting and
Idle to Loading and `boost` fires from Loading and Idle to Boosting, but the
table rows list the stale source names `max` and `load`, which are not among
the declared states, so firing `run` in boosting and `boost` in loading
raises MachineError instead of transitioning; `run` from off or idle and
`boost` from idle do work. -/
theorem transition_table_uses_stale_state_names :
    fire evRun (mkCtrl sBoosting) = Except.error (PyErr.machineError evRun sBoosting) ∧
    fire evBoost (mkCtrl sLoading) = Except.error (PyErr.machineError evBoost sLoading) ∧
    (fire evRun (mkCtrl sOff)).map (fun r => r.1.state) = Except.ok sLoading ∧
    (fire evRun (mkCtrl sIdle)).map (fun r => r.1.state) = Except.ok sLoading ∧
    (fire evBoost (mkCtrl sIdle)).map (fun r => r.1.state) = Except.ok sBoosting ∧
    sMax ∉ pvStates ∧ sLoad ∉ pvStates :=
  ⟨rfl, rfl, rfl, rfl, rfl, by decide, by decide⟩

/-- A controller sitting in boosting with the boost timer registered. -/
def ctrlBoostingTimer : Ctrl :=
  { mkCtrl sBoosting with handles := [(kTimer, 0)], nextId := 1 }

/-- Claim C2 (code bug): when the boost timer fires, the callback pops its
handle and then calls `self.auto()`; the machine attaches only the triggers
run, pause, boost and halt, so the call raises AttributeError and the machine
never returns to loading.  Leaving boosting by another event does cancel the
timer handle, as the claim says. -/
theorem boost_timer_callback_raises_attribute_error :
    time_is_up ctrlBoostingTimer = Except.error (PyErr.attributeError evAuto) ∧
    evAuto ∉ pvEvents ∧
    on_exit_boosting ctrlBoostingTimer =
      ({ ctrlBoostingTimer with handles := [] }, [Effect.cancelHandle 0]) :=
  ⟨rfl, by decide, rfl⟩

/-- Claim C5 counterexample: firing `pause` in state off is not a silent
no-op; it raises MachineError, so the error does escape the trigger call. -/
theorem invalid_trigger_raises_machine_error :
    fire evPause (mkCtrl sOff) = Except.error (PyErr.machineError evPause sOff) := rfl

/-- Claim C5 (amended): for any of the machine's four events fired in a state
with no table row for it, the trigger raises MachineError while leaving the
controller untouched and producing no side effect; the machine is built
without ignore_invalid_triggers, so the invalid trigger is an error, not a
logged no-op. -/
theorem invalid_trigger_is_error_without_side_effects (ev : String) (c : Ctrl)
    (hev : ev ∈ pvEvents) (hno : c.state ∉ eventSources ev) :
    fire ev c = Except.error (PyErr.machineError ev c.state) := by
  have hfind : findTransition ev c.state = none := by
    rw [findTransition, List.find?_eq_none]
    intro t ht
    simp only [decide_eq_true_eq, not_and]
    intro h1 h2
    exact hno (by
      rw [eventSources]
      exact List.mem_flatMap.mpr ⟨t, List.mem_filter.mpr ⟨ht, by simp [h1]⟩, h2⟩)
  rw [fire, if_pos hev, hfind]

theorem invalid_trigger_is_error_without_side_effects_witness :
    evPause ∈ pvEvents ∧ (mkCtrl sOff).state ∉ eventSources evPause ∧
    fire evPause (mkCtrl sOff) =
      Except.error (PyErr.machineError evPause (mkCtrl sOff).state) :=
  ⟨by decide, by decide,
   invalid_trigger_is_error_without_side_effects evPause (mkCtrl sOff) (by decide) (by decide)⟩

/-- Claim C6: a transport failure during the status read aborts the tick
before any actuation; the modelled scheduler keeps the controller and its
control output unchanged and the next scheduled tick runs normally, with no
retry in between. -/
theorem transport_error_contained_in_tick (pid : ℚ → ℚ → ℚ) (c : Ctrl)
    (rest : List (Option ℚ)) :
    update_pid none pid c = Except.error PyErr.transportError ∧
    tickStep none pid c = (c, []) ∧
    runTicks (none :: rest) pid c = runTicks rest pid c :=
  ⟨rfl, rfl, rfl⟩

/-- Claim C9 counterexample: when the soc entity has no state object,
`self.hass.states.get(...)` returns None, the attribute access raises
AttributeError, and the constructor fails instead of falling back. -/
theorem init_missing_entity_raises :
    pvChargerInit none = Except.error (PyErr.attributeError aState) := rfl

/-- Claim C9 (amended): whenever the sensor has a state object, construction
succeeds in state off, with soc read synchronously as the parsed value over
100, falling back to 0.48 when `float` raises ValueError; but when the
entity is missing entirely the constructor raises AttributeError, because
only ValueError is caught. -/
theorem init_off_state_and_soc_fallback (parsed : Option ℚ) :
    (∃ c, pvChargerInit (some parsed) = Except.ok c ∧ c.state = sOff ∧
      c.soc = (match parsed with | some v => v / 100 | none => 12/25) ∧
      c.handles = [] ∧ c.control = AMP_MIN) ∧
    pvChargerInit none = Except.error (PyErr.attributeError aState) := by
  refine ⟨⟨_, rfl, rfl, ?_, rfl, rfl⟩, rfl⟩
  cases parsed <;> rfl

/-- Claim C10: entering boosting only stores the timer handle and sets the
control output to AMP_MAX; no command is issued to the charger driver during
the entry itself. -/
theorem enter_boosting_frame (d : ℚ) (c : Ctrl) (h : c.ampMax = AMP_MAX) :
    on_enter_boosting d c =
      ({ c with handles := dictSet c.handles kTimer c.nextId,
                nextId := c.nextId + 1, control := AMP_MAX },
       [Effect.registerBoostTimer c.nextId d]) ∧
    (∀ e ∈ (on_enter_boosting d c).2, isDriverCmd e = false) := by
  constructor
  · rw [← h]
    rfl
  · intro e he
    simp only [on_enter_boosting, List.mem_singleton] at he
    subst he
    rfl

theorem enter_boosting_frame_witness :
    on_enter_boosting 1800 (mkCtrl sIdle) =
      ({ mkCtrl sIdle with
          handles := dictSet (mkCtrl sIdle).handles kTimer (mkCtrl sIdle).nextId,
          nextId := (mkCtrl sIdle).nextId + 1, control := AMP_MAX },
       [Effect.registerBoostTimer (mkCtrl sIdle).nextId 1800]) :=
  (enter_boosting_frame 1800 (mkCtrl sIdle) rfl).1

/-! Branch lemmas for the tick handler. -/

lemma update_pid_body_idle_run (pid : ℚ → ℚ → ℚ) (c0 : Ctrl)
    (h1 : c0.state = sIdle) (h2 : c0.soc < 1/2) :
    update_pid_body pid c0 = fire evRun c0 := by
  have he : enough_power c0 = true := by rw [enough_power]; exact decide_eq_true h2
  rw [update_pid_body, if_pos h1, if_pos he]

lemma update_pid_body_idle_skip (pid : ℚ → ℚ → ℚ) (c0 : Ctrl)
    (h1 : c0.state = sIdle) (h2 : ¬ c0.soc < 1/2) :
    update_pid_body pid c0 = Except.ok (c0, []) := by
  have he : ¬ enough_power c0 = true := by
    rw [enough_power, decide_eq_false h2]
    exact Bool.false_ne_true
  rw [update_pid_body, if_pos h1, if_neg he]

lemma update_pid_body_loading_pause (pid : ℚ → ℚ → ℚ) (c0 : Ctrl)
    (h1 : c0.state = sLoading) (h2 : ¬ c0.soc < 1/2) :
    update_pid_body pid c0 = fire evPause c0 := by
  have hni : ¬ c0.state = sIdle := by
    rw [h1]
    intro hc
    exact absurd hc (by decide)
  have he : enough_power c0 = false := by rw [enough_power]; exact decide_eq_false h2
  rw [update_pid_body, if_neg hni, if_pos (And.intro h1 he)]

lemma update_pid_body_other (pid : ℚ → ℚ → ℚ) (c0 : Ctrl)
    (hs : c0.socLimits = (SOC_MIN, SOC_MID)) (hp : c0.powerLimits = (POWER_MIN, POWER_MAX))
    (h1 : ¬ c0.state = sIdle) (h2 : c0.state = sLoading → c0.soc < 1/2) :
    update_pid_body pid c0 =
      Except.ok ({ c0 with
                     pidSetpoint := spVal c0.state c0.soc,
                     control := pid (spVal c0.state c0.soc) c0.chargePower },
        [Effect.setMaxCurrent (pythonRound (pid (spVal c0.state c0.soc) c0.chargePower))]) := by
  have hno : ¬ (c0.state = sLoading ∧ enough_power c0 = false) := by
    rintro ⟨hl, hf⟩
    have hlt := h2 hl
    rw [enough_power, decide_eq_true hlt] at hf
    exact absurd hf (by decide)
  rw [update_pid_body, if_neg h1, if_neg hno, calculate_setpoint_eq c0 hs hp]
  rfl

/-- A controller in idle with soc 0.6, where the power test fails. -/
def ctrlIdleHigh : Ctrl := ctrlWith sIdle (3/5)

/-- Claim C3 counterexample: with state idle and a failing power test the
tick returns right after the status read; no setpoint update, no PID
computation, no set-max-current command, although the claim's otherwise
branch requires them for this case. -/
theorem idle_tick_without_power_skips_pid :
    update_pid (some 500) (fun _ m => m) ctrlIdleHigh =
      Except.ok (update_status 500 ctrlIdleHigh, []) :=
  update_pid_body_idle_skip (fun _ m => m) (update_status 500 ctrlIdleHigh) rfl
    (by norm_num [update_status, ctrlIdleHigh, ctrlWith, mkCtrl])

/-- Claim C3 (amended): the power test holds iff soc is strictly below 0.5;
after the status read, an idle tick triggers run when the test passes and in
either case returns without touching the PID; a loading tick with a failing
test triggers pause and returns; otherwise the tick stores the policy
setpoint, stores the PID output computed from the measured charge power as
the control output, and issues set-max-current with the rounded output. -/
theorem update_pid_branch_behavior (nrg : ℚ) (pid : ℚ → ℚ → ℚ) (c : Ctrl)
    (hs : c.socLimits = (SOC_MIN, SOC_MID)) (hp : c.powerLimits = (POWER_MIN, POWER_MAX)) :
    (enough_power c = decide (c.soc < 1/2)) ∧
    (c.state = sIdle → c.soc < 1/2 →
      update_pid (some nrg) pid c = fire evRun (update_status nrg c)) ∧
    (c.state = sIdle → ¬ c.soc < 1/2 →
      update_pid (some nrg) pid c = Except.ok (update_status nrg c, [])) ∧
    (c.state = sLoading → ¬ c.soc < 1/2 →
      update_pid (some nrg) pid c = fire evPause (update_status nrg c)) ∧
    (¬ c.state = sIdle → (c.state = sLoading → c.soc < 1/2) →
      update_pid (some nrg) pid c =
        Except.ok ({ update_status nrg c with
                       pidSetpoint := spVal c.state c.soc,
                       control := pid (spVal c.state c.soc) (update_status nrg c).chargePower },
          [Effect.setMaxCurrent
            (pythonRound (pid (spVal c.state c.soc) (update_status nrg c).chargePower))])) ∧
    calculate_setpoint (update_status nrg c) = Except.ok (spVal c.state c.soc) := by
  refine ⟨rfl, ?_, ?_, ?_, ?_, ?_⟩
  · intro h1 h2
    exact update_pid_body_idle_run pid (update_status nrg c) h1 h2
  · intro h1 h2
    exact update_pid_body_idle_skip pid (update_status nrg c) h1 h2
  · intro h1 h2
    exact update_pid_body_loading_pause pid (update_status nrg c) h1 h2
  · intro h1 h2
    exact update_pid_body_other pid (update_status nrg c) hs hp h1 h2
  · exact calculate_setpoint_eq (update_status nrg c) hs hp

theorem update_pid_branch_behavior_witness :
    update_pid (some 500) (fun _ m => m) (ctrlWith sIdle (3/10)) =
      fire evRun (update_status 500 (ctrlWith sIdle (3/10))) ∧
    calculate_setpoint (update_status 500 (mkCtrl sOff)) =
      Except.ok (spVal (mkCtrl sOff).state (mkCtrl sOff).soc) :=
  ⟨(update_pid_branch_behavior 500 (fun _ m => m) (ctrlWith sIdle (3/10)) rfl rfl).2.1
      rfl (by norm_num [ctrlWith, mkCtrl]),
   (update_pid_branch_behavior 500 (fun _ m => m) (mkCtrl sOff) rfl rfl).2.2.2.2.2⟩

/-- Claim C4: at the configured bands the setpoint policy returns POWER_MAX
when boosting regardless of the measurement, POWER_MAX below the lower band,
the linear interpolation from POWER_MAX at the lower band down to POWER_MIN
at the mid band on the half-open band interval, and POWER_MIN otherwise; for
fixed state the value is monotonically non-increasing in the measurement. -/
theorem setpoint_piecewise_and_antitone (s : String) (m m2 : ℚ) (h : m ≤ m2) :
    calculate_setpoint (ctrlWith s m) =
      Except.ok (if s = sBoosting then POWER_MAX
        else if m < SOC_MIN then POWER_MAX
        else if m < SOC_MID then lerpSpec m
        else POWER_MIN) ∧
    setpointValue s m2 ≤ setpointValue s m := by
  constructor
  · rw [calculate_setpoint_eq (ctrlWith s m) rfl rfl]
    have hv : spVal (ctrlWith s m).state (ctrlWith s m).soc = spVal s m := rfl
    rw [hv]
    unfold spVal lerpSpec SOC_MIN SOC_MID POWER_MIN POWER_MAX
    split_ifs <;> norm_num
    ring
  · rw [setpointValue_eq, setpointValue_eq]
    exact spVal_antitone s m m2 h

theorem setpoint_piecewise_and_antitone_witness :
    (calculate_setpoint (ctrlWith sLoading (3/10)) =
      Except.ok (if sLoading = sBoosting then POWER_MAX
        else if (3 : ℚ)/10 < SOC_MIN then POWER_MAX
        else if (3 : ℚ)/10 < SOC_MID then lerpSpec (3/10)
        else POWER_MIN)) ∧
    setpointValue sLoading (2/5) ≤ setpointValue sLoading (3/10) :=
  setpoint_piecewise_and_antitone sLoading (3/10) (2/5) (by norm_num)

/-- A controller whose soc limits are degenerate, with equal bands. -/
def ctrlEqualBands : Ctrl := { mkCtrl sIdle with soc := 3/10, socLimits := (1/2, 1/2) }

/-- Claim C7 counterexample: with equal bands the gradient division raises
ZeroDivisionError before any branch is taken, so the policy does not return
POWER_MIN there. -/
theorem equal_bands_divide_by_zero :
    calculate_setpoint ctrlEqualBands = Except.error PyErr.zeroDivisionError ∧
    calculate_setpoint ctrlEqualBands ≠ Except.ok POWER_MIN := by
  have h1 : calculate_setpoint ctrlEqualBands = Except.error PyErr.zeroDivisionError := by
    norm_num [calculate_setpoint, ctrlEqualBands]
  refine ⟨h1, ?_⟩
  rw [h1]
  intro hc
  exact Except.noConfusion hc

/-- Claim C7 (amended): the setpoint policy is a deterministic, side-effect
free function that always returns a value at the configured bands, whose
lower and mid values differ; there is no guard for equal bands, where the
unconditional gradient computation raises ZeroDivisionError rather than
returning POWER_MIN. -/
theorem setpoint_total_at_configured_bands (s : String) (m : ℚ) :
    (∃ p, calculate_setpoint (ctrlWith s m) = Except.ok p) ∧
    calculate_setpoint { ctrlWith s m with socLimits := (SOC_MID, SOC_MID) } =
      Except.error PyErr.zeroDivisionError :=
  ⟨⟨spVal s m, calculate_setpoint_eq (ctrlWith s m) rfl rfl⟩,
   by norm_num [calculate_setpoint, SOC_MID]⟩

/-! Lemmas for the halt transition and the entry into off. -/

lemma countDisable_append (a b : List Effect) :
    countDisable (a ++ b) = countDisable a + countDisable b := by
  simp [countDisable, List.filter_append]

lemma countDisable_cancels (d : List (String × ℕ)) :
    countDisable (d.map (fun p => Effect.cancelHandle p.2)) = 0 := by
  induction d with
  | nil => rfl
  | cons p d ih =>
      simp only [List.map_cons, countDisable, List.filter_cons] at ih ⊢
      simpa [isDisableCmd] using ih

lemma countDisable_exit (s : String) (c : Ctrl) : countDisable ((exitCallback s) c).2 = 0 := by
  unfold exitCallback
  split_ifs
  · simp [on_exit_off, async_switch_charger, countDisable, isDisableCmd]
  · simp [on_exit_idle, async_switch_charger, countDisable, isDisableCmd]
  · unfold on_exit_boosting
    rcases dictPop c.handles kTimer with ⟨ho, d⟩
    cases ho <;> simp [countDisable, isDisableCmd]
  · simp [countDisable]

lemma findTransition_halt (st : String) (hst : st ∈ pvStates) :
    findTransition evHalt st = some (evHalt, Src.wildcard, sOff) := by
  have h1 : st ∈ resolveSrc Src.wildcard := by simpa [resolveSrc] using hst
  simp [findTransition, rawTransitions, List.find?, evRun, evPause, evBoost, evHalt, h1]

lemma fire_halt_eq (c : Ctrl) (hst : c.state ∈ pvStates) :
    fire evHalt c =
      Except.ok ((on_enter_off { ((exitCallback c.state) c).1 with state := sOff }).1,
        ((exitCallback c.state) c).2 ++
          (on_enter_off { ((exitCallback c.state) c).1 with state := sOff }).2) := by
  rw [fire, if_pos (show evHalt ∈ pvEvents by decide), findTransition_halt c.state hst]
  rfl

/-- Claim C8: completing a halt transition from any state succeeds and leaves
an empty subscription map, every handle present in the map when the off entry
runs is cancelled, and exactly one charger-disable command appears in the
transition's effect trace. -/
theorem enter_off_cancels_all_and_disables_once (c : Ctrl) (hst : c.state ∈ pvStates) :
    ∃ c2 es, fire evHalt c = Except.ok (c2, es) ∧
      c2.handles = [] ∧
      (∀ p ∈ ((exitCallback c.state) c).1.handles, Effect.cancelHandle p.2 ∈ es) ∧
      countDisable es = 1 := by
  refine ⟨_, _, fire_halt_eq c hst, rfl, ?_, ?_⟩
  · intro p hp
    refine List.mem_append.mpr (Or.inr ?_)
    simp only [on_enter_off, async_switch_charger]
    refine List.mem_append.mpr (Or.inl ?_)
    exact List.mem_map_of_mem _ hp
  · rw [countDisable_append, countDisable_exit]
    simp only [on_enter_off, async_switch_charger]
    rw [countDisable_append, countDisable_cancels]
    rfl

/-- A controller holding all three subscription handles. -/
def ctrlAllHandles : Ctrl :=
  { mkCtrl sBoosting with handles := [(kSoc, 0), (kPid, 1), (kTimer, 2)], nextId := 3 }

theorem enter_off_cancels_all_and_disables_once_witness :
    ctrlAllHandles.state ∈ pvStates ∧
    (∃ c2 es, fire evHalt ctrlAllHandles = Except.ok (c2, es) ∧
      c2.handles = [] ∧
      (∀ p ∈ ((exitCallback ctrlAllHandles.state) ctrlAllHandles).1.handles,
        Effect.cancelHandle p.2 ∈ es) ∧
      countDisable es = 1) :=
  ⟨by decide, enter_off_cancels_all_and_disables_once ctrlAllHandles (by decide)⟩

end PVCharge
